import Mathlib

/-!
Verification of the gospital overload-protection layer.

Shallow embedding of the resilience middleware of the gospital
repository: the per-dependency circuit breaker configured in
`internal/infrastructure/mysql_client.go`, the CPU monitor and admission
gate of `internal/middleware/cpu_circuit_breaker.go`, the timeout
middleware of `internal/middleware/timeout.go`, and the bulkhead of
`internal/middleware/bulkhead.go`.  Go `float64` arithmetic on counters
and utilization percentages is modelled with exact rationals; `uint64`
subtraction is modelled with explicit `% 2^64`.
-/

namespace Gospital

/-! ## Per-dependency circuit breaker

The breaker wrapping the MySQL and DynamoDB clients is
`github.com/sony/gobreaker`, configured in `NewMySQLClient`
(internal/infrastructure/mysql_client.go) and `NewDynamoDBClient` with
`MaxRequests = 3`, `Interval = 10s`, `Timeout = 30s` and a `ReadyToTrip`
predicate written in the repository itself. -/

/-- Rolling counts of one breaker: `Requests` and `TotalFailures`
accumulated over one counting interval. -/
structure Counts where
  requests : ℕ
  totalFailures : ℕ
deriving Repr, DecidableEq

/-- The trip predicate from `NewMySQLClient` / `NewDynamoDBClient`:
`failureRatio := float64(counts.TotalFailures) / float64(counts.Requests);
return counts.Requests >= 3 && failureRatio >= 0.6`, with the float
division and the literal `0.6` modelled by exact rationals. -/
def readyToTrip (c : Counts) : Bool :=
  decide (3 ≤ c.requests) &&
    decide ((6 : ℚ) / 10 ≤ (c.totalFailures : ℚ) / (c.requests : ℚ))

/-- Breaker state within one counting interval.  HalfOpen is omitted: it
is reached only after the 30-second open timeout elapses, which cannot
happen inside the single 10-second counting interval the claims range
over. -/
inductive CBState where
  | closed
  | opened
deriving Repr, DecidableEq

/-- Outcome of one invocation of the wrapped operation. -/
inductive Outcome where
  | success
  | failure
deriving Repr, DecidableEq

/-- A breaker instance: current state and rolling counts. -/
structure Breaker where
  state : CBState
  counts : Counts
deriving Repr, DecidableEq

/-- Result of one `Execute` call: either the wrapped operation ran and
produced the given outcome, or the breaker rejected the call with its
distinct circuit-open error without invoking the operation. -/
inductive ExecResult where
  | ran (o : Outcome)
  | circuitOpenError
deriving Repr, DecidableEq

/-- Whether the wrapped operation was invoked during the call. -/
def ExecResult.invoked : ExecResult → Bool
  | .ran _ => true
  | .circuitOpenError => false

/-- Modelled from the spec: the gobreaker state machine itself is a
library dependency, not part of src/.  Spec section 4.1: in Closed state
every call passes through, its success or failure is recorded into the
rolling counts, and if `requests ≥ minRequestThreshold` and the failure
ratio reaches `failureRatioThreshold` the breaker transitions to Open;
in Open state every call fails fast with the circuit-open error without
invoking the operation.  The trip predicate is the repository's own
`ReadyToTrip`.  Restricted to one counting interval: no counter reset
and no open-timeout elapse occur. -/
def execute (b : Breaker) (o : Outcome) : Breaker × ExecResult :=
  match b.state with
  | .opened => (b, .circuitOpenError)
  | .closed =>
    let c : Counts :=
      { requests := b.counts.requests + 1
        totalFailures := b.counts.totalFailures + (match o with | .failure => 1 | .success => 0) }
    ({ state := if readyToTrip c then .opened else .closed, counts := c }, .ran o)

/-- The state transition of one `execute` call. -/
def stepCB (b : Breaker) (o : Outcome) : Breaker :=
  (execute b o).1

/-- A fresh breaker: Closed with zero counts. -/
def initBreaker : Breaker :=
  { state := .closed, counts := { requests := 0, totalFailures := 0 } }

/-- Run a sequence of call outcomes through a breaker. -/
def runFrom (b : Breaker) (l : List Outcome) : Breaker :=
  l.foldl stepCB b

/-- Run a sequence of call outcomes from a fresh breaker. -/
def runCB (l : List Outcome) : Breaker :=
  runFrom initBreaker l

/-- Invariant tying the breaker's state to its rolling counts: the
breaker is Open exactly when the recorded counts satisfy the trip
predicate (counts freeze once the breaker opens, so the predicate keeps
holding). -/
def BreakerInv (b : Breaker) : Prop :=
  b.state = CBState.opened ↔ readyToTrip b.counts = true

/-! ## CPU resource monitor

Embedding of `internal/middleware/cpu_circuit_breaker.go`
(src/unnamed/part_010): the `CPUCircuitBreaker` struct, its constructor
`NewCPUCircuitBreaker`, the sampling loop body of `monitorCPU`, the
reading function `getContainerCPU`, and the admission-gate middleware
`CPUCircuitBreakerMiddleware`.  The thresholds come from
`cmd/api/router.go` (src/unnamed/part_013). -/

/-- `cpuOverloadThreshold = 95.0` from cmd/api/router.go. -/
def cpuOverloadThreshold : ℚ := 95

/-- `cpuRecoveryThreshold = 85.0` from cmd/api/router.go. -/
def cpuRecoveryThreshold : ℚ := 85

/-- `requestTimeout = 100 * time.Millisecond` from cmd/api/router.go,
in milliseconds. -/
def requestTimeout : ℕ := 100

/-- The mutable state of the monitor guarded by `cb.mu`: the `isOpen`
flag (the OverloadFlag) and `currentCPU` (utilization percent). -/
structure CPUMonitorState where
  isOpen : Bool
  currentCPU : ℚ
deriving Repr, DecidableEq

/-- Outcome of one HTTP GET against the ECS metadata endpoint:
the call itself can fail, or return a status code and a body; a body of
`none` models a JSON decoding failure. -/
inductive FetchResult (α : Type) where
  | failed
  | response (status : ℕ) (body : Option α)
deriving Repr, DecidableEq

/-- One entry of the `/task/stats` map, as read by `getContainerCPU`:
`hasCPUStats` is true when `stats`, `cpu_stats`, `precpu_stats` and both
`cpu_usage` pointers are all non-nil; `timeDeltaNs` is
`read.Sub(preread).Nanoseconds()` (an int64); the usages are the uint64
cumulative counters. -/
structure ECSStatEntry where
  hasCPUStats : Bool
  timeDeltaNs : ℤ
  totalUsage : ℕ
  preTotalUsage : ℕ
deriving Repr, DecidableEq

/-- vCPUs used by one valid entry:
`float64(cpuDelta) / float64(timeDelta)` where
`cpuDelta := total_usage - pre_total_usage` is uint64 subtraction,
modelled with an explicit `% 2^64`. -/
def entryVCPUs (e : ECSStatEntry) : ℚ :=
  (((e.totalUsage + 2 ^ 64 - e.preTotalUsage) % 2 ^ 64 : ℕ) : ℚ) / (e.timeDeltaNs : ℚ)

/-- `getContainerCPU` from cpu_circuit_breaker.go: an HTTP error,
non-200 status or decode failure is an error (`none`); otherwise the
loop accumulates vCPUs over the valid entries, and when no valid entry
is found the function returns the successful reading `0.0` (not an
error); a negative percentage is clamped to 0. -/
def getContainerCPU (taskCPULimit : ℚ) (r : FetchResult (List ECSStatEntry)) : Option ℚ :=
  match r with
  | .failed => none
  | .response status body =>
    if status ≠ 200 then none
    else
      match body with
      | none => none
      | some statsMap =>
        let acc := statsMap.foldl
          (fun (acc : ℚ × Bool) stats =>
            if stats.hasCPUStats && decide (0 < stats.timeDeltaNs) then
              (acc.1 + entryVCPUs stats, true)
            else acc)
          ((0 : ℚ), false)
        if acc.2 = false then some 0
        else
          let cpuPercent := acc.1 / taskCPULimit * 100
          some (if cpuPercent < 0 then 0 else cpuPercent)

/-- One iteration of the `monitorCPU` loop after `getContainerCPU`
returned: on error (`none`) the iteration is `continue` — the state is
untouched; on a reading the loop stores it into `currentCPU` and flips
`isOpen` according to `shouldOpen`/`shouldClose`. -/
def monitorCPUTick (overloadThreshold recoveryThreshold : ℚ)
    (s : CPUMonitorState) (reading : Option ℚ) : CPUMonitorState :=
  match reading with
  | none => s
  | some cpuUsage =>
    let shouldOpen := !s.isOpen && decide (overloadThreshold ≤ cpuUsage)
    let shouldClose := s.isOpen && decide (cpuUsage < recoveryThreshold)
    { currentCPU := cpuUsage
      isOpen := if shouldOpen then true else if shouldClose then false else s.isOpen }

/-- The `monitorCPU` loop over a finite list of per-tick readings. -/
def monitorCPURun (overloadThreshold recoveryThreshold : ℚ)
    (s : CPUMonitorState) (readings : List (Option ℚ)) : CPUMonitorState :=
  readings.foldl (monitorCPUTick overloadThreshold recoveryThreshold) s

/-- `fetchTaskCPULimit` from cpu_circuit_breaker.go: fails on HTTP
error, non-200 status, decode failure, or a reported CPU limit that is
not positive; otherwise yields the limit. -/
def fetchTaskCPULimit (r : FetchResult ℚ) : Option ℚ :=
  match r with
  | .failed => none
  | .response status body =>
    if status ≠ 200 then none
    else
      match body with
      | none => none
      | some cpuLimit => if cpuLimit ≤ 0 then none else some cpuLimit

/-- Observable result of running the constructor `NewCPUCircuitBreaker`:
the struct fields it sets, whether the `go cb.monitorCPU()` goroutine
was spawned, and the log lines the constructor itself printed. -/
structure CPUBreakerInit where
  isOpen : Bool
  currentCPU : ℚ
  overloadThreshold : ℚ
  recoveryThreshold : ℚ
  metadataURI : String
  taskCPULimit : ℚ
  monitorStarted : Bool
  logs : List String
deriving Repr, DecidableEq

/-- `NewCPUCircuitBreaker` from cpu_circuit_breaker.go, as a function of
the `ECS_CONTAINER_METADATA_URI_V4` environment variable (`""` when
unset, as `os.Getenv` returns) and the `/task` metadata response.
Both degraded branches return a breaker with `isOpen = false` and
`metadataURI = ""` (remaining fields Go zero values), spawn no monitor
goroutine, and print nothing; only the successful branch spawns
`monitorCPU` and logs the Initialized line. -/
def NewCPUCircuitBreaker (overloadThreshold recoveryThreshold : ℚ)
    (env : String) (task : FetchResult ℚ) : CPUBreakerInit :=
  if env = "" then
    { isOpen := false, currentCPU := 0, overloadThreshold := 0, recoveryThreshold := 0
      metadataURI := "", taskCPULimit := 0, monitorStarted := false, logs := [] }
  else
    match fetchTaskCPULimit task with
    | none =>
      { isOpen := false, currentCPU := 0, overloadThreshold := 0, recoveryThreshold := 0
        metadataURI := "", taskCPULimit := 0, monitorStarted := false, logs := [] }
    | some limit =>
      { isOpen := false, currentCPU := 0, overloadThreshold := overloadThreshold
        recoveryThreshold := recoveryThreshold, metadataURI := env, taskCPULimit := limit
        monitorStarted := true, logs := ["[CPU Circuit Breaker] Initialized"] }

/-- `IsOpen` from cpu_circuit_breaker.go: a read of the flag under the
read lock. -/
def IsOpen (cb : CPUBreakerInit) : Bool :=
  cb.isOpen

/-- Outcome of the admission-gate middleware on one request: either a
JSON error response (with `c.Abort()`, so the chain stops), or
`c.Next()` — the request passes through unchanged. -/
inductive GateOutcome where
  | rejected (status : ℕ) (code : String) (details : List ℚ)
  | passed
deriving Repr, DecidableEq

/-- Whether the gate outcome invokes the rest of the handler chain. -/
def GateOutcome.invokesNext : GateOutcome → Bool
  | .rejected _ _ _ => false
  | .passed => true

/-- `CPUCircuitBreakerMiddleware` from cpu_circuit_breaker.go: when the
monitor's flag is open, respond 503 with code SERVICE_OVERLOADED and
the current CPU utilization in the details, and abort; otherwise pass
through.  The detail string `Current CPU: %.1f%%` is modelled by the
utilization value it formats. -/
def CPUCircuitBreakerMiddleware (cb : CPUMonitorState) : GateOutcome :=
  if cb.isOpen then .rejected 503 "SERVICE_OVERLOADED" [cb.currentCPU]
  else .passed

/-! ## Deadline enforcer

Embedding of `TimeoutMiddleware` (internal/middleware/timeout.go,
src/unnamed/part_010): the handler runs in a goroutine that closes
`done` on completion or sends a recovered panic on the unbuffered
`panicChan`; the middleware `select`s between `done`, `panicChan` and
`time.After(timeout)`.  The race is modelled by the time at which the
handler would complete or panic: the select takes whichever channel
becomes ready first, and exactly one branch runs. -/

/-- Behavior of the wrapped handler chain on one request: it either
completes (the goroutine closes `done`) or panics (the goroutine sends
on `panicChan`) at the given number of milliseconds after entry. -/
inductive HandlerBehavior where
  | completes (t : ℕ)
  | panics (t : ℕ)
deriving Repr, DecidableEq

/-- The single branch the middleware's `select` runs for one request:
return with the handler's own response standing, re-raise the handler's
panic on the request path, or write the timeout JSON error response. -/
inductive TimeoutOutcome where
  | handlerResponse
  | repanic
  | timeoutResponse (status : ℕ) (code : String)
deriving Repr, DecidableEq

/-- `TimeoutMiddleware` from timeout.go: the handler event wins the
select when it happens strictly before the timer fires (at a tie Go
picks a ready case pseudo-randomly; the claims only constrain the
strict cases).  When the timer wins, the middleware aborts and writes
504 REQUEST_TIMEOUT, and never reads `done` or `panicChan` afterwards:
a late panic is not re-raised (its send on the unbuffered `panicChan`
blocks forever).  The outcome is the branch the middleware function
itself runs; the abandoned handler goroutine's own writes to the shared
`gin.Context` response writer are modelled separately by
`timeoutRequestWrites`. -/
def TimeoutMiddleware (timeout : ℕ) (hb : HandlerBehavior) : TimeoutOutcome :=
  match hb with
  | .completes t =>
    if t < timeout then .handlerResponse else .timeoutResponse 504 "REQUEST_TIMEOUT"
  | .panics t =>
    if t < timeout then .repanic else .timeoutResponse 504 "REQUEST_TIMEOUT"

/-- The shared `gin.Context` response writer over one request's whole
lifetime: the status actually sent to the client, and the body chunks
in the order they were written.  `net/http` honors only the first
`WriteHeader` (a later duplicate status write is ignored with a log),
while body bytes passed to `Write` are always appended. -/
structure ResponseState where
  status : Option ℕ
  bodyChunks : List String
deriving Repr, DecidableEq

/-- One `c.JSON(status, body)` call against the shared writer: the
status takes effect only if no status was written yet; the rendered
body is appended. -/
def writeJSON (w : ResponseState) (status : ℕ) (body : String) : ResponseState :=
  { status := match w.status with | none => some status | some s => some s
    bodyChunks := w.bodyChunks ++ [body] }

/-- All writes landing on the shared response writer for one request
through `TimeoutMiddleware` whose handler completes at time `t`,
writing `handlerStatus`/`handlerBody`.  From timeout.go: `c.Next()`
runs in the spawned goroutine against the same `gin.Context`.  If the
handler completes strictly before the timer, its write is the only one
and the middleware returns.  If the timer fires first, the middleware
writes the 504 REQUEST_TIMEOUT response and returns — but the goroutine
is not stopped, so the handler's own `c.JSON` still executes later
against the same writer; timeout.go has no write-once guard, only the
duplicate status write is suppressed (by net/http), and the handler's
body is appended after the timeout body. -/
def timeoutRequestWrites (timeout t handlerStatus : ℕ) (handlerBody : String) :
    ResponseState :=
  if t < timeout then
    writeJSON { status := none, bodyChunks := [] } handlerStatus handlerBody
  else
    writeJSON (writeJSON { status := none, bodyChunks := [] } 504 "REQUEST_TIMEOUT")
      handlerStatus handlerBody

/-! ## Bulkhead

Embedding of `internal/middleware/bulkhead.go`: the semaphore channel
of capacity `maxConcurrent` is modelled by the number of held slots. -/

/-- A bulkhead: the channel capacity and how many slot tokens are
currently buffered in it (held by in-flight requests). -/
structure Bulkhead where
  maxConcurrent : ℕ
  held : ℕ
deriving Repr, DecidableEq

/-- `NewBulkhead`: a fresh semaphore channel, no slot held. -/
def NewBulkhead (maxConcurrent : ℕ) : Bulkhead :=
  { maxConcurrent := maxConcurrent, held := 0 }

/-- The non-blocking acquire: the `case b.semaphore <- struct{}{}`
branch of the select succeeds exactly when the channel has room,
otherwise the `default` branch is taken immediately. -/
def tryAcquire (b : Bulkhead) : Bool × Bulkhead :=
  if b.held < b.maxConcurrent then (true, { b with held := b.held + 1 })
  else (false, b)

/-- The deferred `<-b.semaphore`: one held slot is returned. -/
def releaseSlot (b : Bulkhead) : Bulkhead :=
  { b with held := b.held - 1 }

/-- How the handler invoked under the bulkhead exits: normal return,
error response, or panic (the deferred release runs in all cases). -/
inductive HandlerExit where
  | normal
  | errored
  | panicked
deriving Repr, DecidableEq

/-- Observable result of one `Execute` call: whether the wrapped
handler was invoked, the rejection response (status, code) if not, the
number of slots held while the handler ran, and the bulkhead state
after the call. -/
structure BulkheadExec where
  invoked : Bool
  rejection : Option (ℕ × String)
  heldDuring : ℕ
  after : Bulkhead
deriving Repr, DecidableEq

/-- `Execute` from bulkhead.go: acquire a slot without blocking; on
success run `next` and release the slot on every exit path via `defer`;
on failure respond 503 SERVICE_UNAVAILABLE immediately and abort,
without queuing and without invoking `next`. -/
def Execute (b : Bulkhead) (exit : HandlerExit) : BulkheadExec :=
  match tryAcquire b with
  | (true, acquired) =>
    { invoked := true, rejection := none, heldDuring := acquired.held
      after := releaseSlot acquired }
  | (false, _) =>
    { invoked := false, rejection := some (503, "SERVICE_UNAVAILABLE")
      heldDuring := b.held, after := b }

/-- An acquire or release step by some concurrent request, for stating
the capacity invariant over arbitrary interleavings. -/
inductive SlotEvent where
  | acquire
  | release
deriving Repr, DecidableEq

/-- Apply one slot event to the shared semaphore. -/
def stepSlots (b : Bulkhead) (e : SlotEvent) : Bulkhead :=
  match e with
  | .acquire => (tryAcquire b).2
  | .release => releaseSlot b

/-- `InternalBulkhead = NewBulkhead(50)` for staff operations. -/
def InternalBulkhead : Bulkhead :=
  NewBulkhead 50

/-- `ExternalBulkhead = NewBulkhead(100)` for public operations. -/
def ExternalBulkhead : Bulkhead :=
  NewBulkhead 100

/-- `isInternalRequest` from bulkhead.go: the `X-User-Type` header is
exactly `staff` (`c.GetHeader` yields `""` for a missing header). -/
def isInternalRequest (userType : String) : Bool :=
  userType == "staff"

/-- The classification step of `BulkheadMiddleware`: which bulkhead
executes the request, as a function of the `X-User-Type` header. -/
def BulkheadMiddleware (userType : String) : Bulkhead :=
  if isInternalRequest userType then InternalBulkhead else ExternalBulkhead

lemma stepCB_of_opened (b : Breaker) (o : Outcome) (h : b.state = .opened) :
    stepCB b o = b := by
  cases b with
  | mk st c => cases st <;> simp_all [stepCB, execute]

lemma runFrom_of_opened (b : Breaker) (l : List Outcome) (h : b.state = .opened) :
    runFrom b l = b := by
  induction l generalizing b with
  | nil => rfl
  | cons o t ih =>
    show runFrom (stepCB b o) t = b
    rw [stepCB_of_opened b o h, ih b h]

lemma breakerInv_stepCB (b : Breaker) (o : Outcome) (h : BreakerInv b) :
    BreakerInv (stepCB b o) := by
  cases b with
  | mk st c =>
    cases st with
    | opened => rwa [stepCB_of_opened _ o rfl]
    | closed =>
      have hc : readyToTrip c = false := by
        rcases Bool.eq_false_or_eq_true (readyToTrip c) with ht | hf
        · simp [BreakerInv, ht] at h
        · exact hf
      unfold BreakerInv stepCB execute
      cases htrip : readyToTrip
          { requests := c.requests + 1
            totalFailures := c.totalFailures + (match o with | .failure => 1 | .success => 0) } <;>
        simp [htrip]

lemma breakerInv_runFrom (b : Breaker) (l : List Outcome) (h : BreakerInv b) :
    BreakerInv (runFrom b l) := by
  induction l generalizing b with
  | nil => exact h
  | cons o t ih => exact ih (stepCB b o) (breakerInv_stepCB b o h)

lemma breakerInv_runCB (l : List Outcome) : BreakerInv (runCB l) := by
  refine breakerInv_runFrom _ _ ?_
  unfold BreakerInv initBreaker readyToTrip
  norm_num
  exact fun h => nomatch h

lemma runCB_append (l₁ l₂ : List Outcome) :
    runCB (l₁ ++ l₂) = runFrom (runCB l₁) l₂ :=
  List.foldl_append ..

lemma runCB_ffs_opened :
    (runCB [Outcome.failure, Outcome.failure, Outcome.success]).state = CBState.opened := by
  norm_num [runCB, runFrom, stepCB, execute, initBreaker, readyToTrip, List.foldl]

/-- C1: starting Closed with fresh counts, within one counting interval,
the breaker is Open exactly when the recorded counts reach
`minRequestThreshold = 3` requests with failure ratio at least `0.6`
(so the transition Closed to Open happens exactly once, immediately
after the crossing call, and the breaker stays Open for the rest of the
interval); in particular after the sequence failure, failure, success
the breaker is Open and a 4th `Execute` call returns the circuit-open
error without invoking the wrapped operation. -/
theorem breaker_trips_closed_to_open_once :
    (∀ l : List Outcome,
        (runCB l).state = CBState.opened ↔ readyToTrip (runCB l).counts = true)
    ∧ (∀ l : List Outcome,
        readyToTrip (runCB l).counts = false → (runCB l).state = CBState.closed)
    ∧ (∀ l₁ l₂ : List Outcome,
        (runCB l₁).state = CBState.opened → (runCB (l₁ ++ l₂)).state = CBState.opened)
    ∧ (runCB [Outcome.failure, Outcome.failure, Outcome.success]).state = CBState.opened
    ∧ (∀ o : Outcome,
        execute (runCB [Outcome.failure, Outcome.failure, Outcome.success]) o =
          (runCB [Outcome.failure, Outcome.failure, Outcome.success],
            ExecResult.circuitOpenError)
        ∧ (execute (runCB [Outcome.failure, Outcome.failure, Outcome.success]) o).2.invoked
            = false) := by
  refine ⟨fun l => breakerInv_runCB l, fun l h => ?_, fun l₁ l₂ h => ?_, runCB_ffs_opened,
    fun o => ?_⟩
  · cases hs : (runCB l).state with
    | closed => rfl
    | opened => rw [(breakerInv_runCB l).mp hs] at h; cases h
  · rw [runCB_append, runFrom_of_opened _ _ h]; exact h
  · cases o <;>
      refine ⟨?_, ?_⟩ <;>
      norm_num [runCB, runFrom, stepCB, execute, initBreaker, readyToTrip, List.foldl,
        ExecResult.invoked]

/-- Witness for C1: the breaker opened by failure, failure, success
stays Open across one more call. -/
theorem breaker_trips_closed_to_open_once_w :
    (runCB ([Outcome.failure, Outcome.failure, Outcome.success] ++ [Outcome.success])).state
      = CBState.opened :=
  breaker_trips_closed_to_open_once.2.2.1
    [Outcome.failure, Outcome.failure, Outcome.success] [Outcome.success] runCB_ffs_opened

lemma monitorCPUTick_flag_of_not_open (overload recovery : ℚ) (s : CPUMonitorState)
    (u : ℚ) (h : s.isOpen = false) :
    (monitorCPUTick overload recovery s (some u)).isOpen = decide (overload ≤ u) := by
  simp [monitorCPUTick, h]

lemma monitorCPUTick_flag_of_open (overload recovery : ℚ) (s : CPUMonitorState)
    (u : ℚ) (h : s.isOpen = true) :
    (monitorCPUTick overload recovery s (some u)).isOpen = !decide (u < recovery) := by
  by_cases hu : u < recovery <;> simp [monitorCPUTick, h, hu]

lemma monitorCPUTick_band (s : CPUMonitorState) (u : ℚ)
    (h₁ : cpuRecoveryThreshold ≤ u) (h₂ : u < cpuOverloadThreshold) :
    (monitorCPUTick cpuOverloadThreshold cpuRecoveryThreshold s (some u)).isOpen
      = s.isOpen := by
  cases hs : s.isOpen with
  | false =>
    rw [monitorCPUTick_flag_of_not_open _ _ _ _ hs]
    simpa using not_le.mpr h₂
  | true =>
    rw [monitorCPUTick_flag_of_open _ _ _ _ hs]
    simpa using not_lt.mpr h₁

lemma monitorCPURun_band (s : CPUMonitorState) (l : List ℚ)
    (h : ∀ u ∈ l, (86 : ℚ) ≤ u ∧ u ≤ 94) :
    (monitorCPURun cpuOverloadThreshold cpuRecoveryThreshold s (l.map some)).isOpen
      = s.isOpen := by
  induction l generalizing s with
  | nil => rfl
  | cons u t ih =>
    have hu := h u (List.mem_cons_self u t)
    have hband : cpuRecoveryThreshold ≤ u ∧ u < cpuOverloadThreshold := by
      unfold cpuRecoveryThreshold cpuOverloadThreshold
      constructor <;> linarith [hu.1, hu.2]
    show (monitorCPURun _ _ (monitorCPUTick _ _ s (some u)) (t.map some)).isOpen = s.isOpen
    rw [ih _ fun v hv => h v (List.mem_cons_of_mem u hv),
      monitorCPUTick_band s u hband.1 hband.2]

/-- C3: over any run of successfully computed utilization samples, the
OverloadFlag flips false to true exactly on a sample at or above the
95% overload threshold, flips true to false exactly on a sample below
the 85% recovery threshold, and is unchanged by a sample inside the
hysteresis band; samples oscillating in [86, 94] never change the flag,
and from a non-overloaded state the samples 96 then 80 produce exactly
the transitions false, true, false. -/
theorem monitor_hysteresis :
    (∀ (s : CPUMonitorState) (u : ℚ), s.isOpen = false →
        ((monitorCPUTick cpuOverloadThreshold cpuRecoveryThreshold s (some u)).isOpen = true
          ↔ cpuOverloadThreshold ≤ u))
    ∧ (∀ (s : CPUMonitorState) (u : ℚ), s.isOpen = true →
        ((monitorCPUTick cpuOverloadThreshold cpuRecoveryThreshold s (some u)).isOpen = false
          ↔ u < cpuRecoveryThreshold))
    ∧ (∀ (s : CPUMonitorState) (u : ℚ),
        cpuRecoveryThreshold ≤ u → u < cpuOverloadThreshold →
        (monitorCPUTick cpuOverloadThreshold cpuRecoveryThreshold s (some u)).isOpen
          = s.isOpen)
    ∧ (∀ (s : CPUMonitorState) (l : List ℚ), (∀ u ∈ l, (86 : ℚ) ≤ u ∧ u ≤ 94) →
        (monitorCPURun cpuOverloadThreshold cpuRecoveryThreshold s (l.map some)).isOpen
          = s.isOpen)
    ∧ ((monitorCPURun cpuOverloadThreshold cpuRecoveryThreshold ⟨false, 0⟩
          [some 96]).isOpen = true
        ∧ (monitorCPURun cpuOverloadThreshold cpuRecoveryThreshold ⟨false, 0⟩
            [some 96, some 80]).isOpen = false) := by
  refine ⟨fun s u h => ?_, fun s u h => ?_, monitorCPUTick_band, monitorCPURun_band,
    ?_, ?_⟩
  · rw [monitorCPUTick_flag_of_not_open _ _ _ _ h]; simp
  · rw [monitorCPUTick_flag_of_open _ _ _ _ h]; simp
  · norm_num [monitorCPURun, monitorCPUTick, cpuOverloadThreshold, cpuRecoveryThreshold,
      List.foldl]
  · norm_num [monitorCPURun, monitorCPUTick, cpuOverloadThreshold, cpuRecoveryThreshold,
      List.foldl]

/-- Witness for C3: a sample of 90, inside the hysteresis band, leaves
an overloaded flag unchanged. -/
theorem monitor_hysteresis_w :
    (monitorCPUTick cpuOverloadThreshold cpuRecoveryThreshold ⟨true, 90⟩
        (some 90)).isOpen = true :=
  (monitor_hysteresis.2.2.1 ⟨true, 90⟩ 90 (by norm_num [cpuRecoveryThreshold])
      (by norm_num [cpuOverloadThreshold])).trans rfl

/-- Counterexample for C4: a tick whose 200-status stats response
contains no valid per-container CPU statistics is a successful reading
of 0 in `getContainerCPU` (`return 0.0, nil`), so with the flag raised
at 96% utilization the tick overwrites the utilization with 0 and flips
the OverloadFlag to false, rather than leaving both unchanged. -/
theorem monitor_no_valid_stats_changes_state :
    getContainerCPU 1 (FetchResult.response 200 (some [])) = some 0
    ∧ monitorCPUTick cpuOverloadThreshold cpuRecoveryThreshold ⟨true, 96⟩
        (getContainerCPU 1 (FetchResult.response 200 (some [])))
      = ⟨false, 0⟩
    ∧ (⟨false, 0⟩ : CPUMonitorState) ≠ ⟨true, 96⟩ := by
  refine ⟨rfl, ?_, ?_⟩
  · norm_num [getContainerCPU, monitorCPUTick, cpuOverloadThreshold, cpuRecoveryThreshold,
      List.foldl]
  · intro h
    cases h

/-- C4 (amended): a tick on which the reading is unavailable because
the stats endpoint call fails, returns a non-200 status, or fails to
parse is an error in `getContainerCPU`, and an error tick leaves the
OverloadFlag and the current utilization unchanged (and the total tick
function never crashes the loop); a 200 response with no valid
per-container statistics is not among these cases — it is a successful
0% reading. -/
theorem monitor_skips_unavailable_reading :
    (∀ (overload recovery : ℚ) (s : CPUMonitorState),
        monitorCPUTick overload recovery s none = s)
    ∧ (∀ limit : ℚ, getContainerCPU limit .failed = none)
    ∧ (∀ (limit : ℚ) (status : ℕ) (body : Option (List ECSStatEntry)),
        status ≠ 200 → getContainerCPU limit (.response status body) = none)
    ∧ (∀ (limit : ℚ) (status : ℕ), getContainerCPU limit (.response status none) = none)
    ∧ (∀ (limit : ℚ) (r : FetchResult (List ECSStatEntry)) (s : CPUMonitorState),
        getContainerCPU limit r = none →
          monitorCPUTick cpuOverloadThreshold cpuRecoveryThreshold s
            (getContainerCPU limit r) = s) := by
  refine ⟨fun _ _ _ => rfl, fun _ => rfl, fun limit status body h => ?_,
    fun limit status => ?_, fun limit r s h => ?_⟩
  · simp [getContainerCPU, h]
  · by_cases h : status = 200 <;> simp [getContainerCPU, h]
  · rw [h]; rfl

/-- Witness for C4: a 500-status stats response is an error and the
tick keeps the monitor state. -/
theorem monitor_skips_unavailable_reading_w :
    getContainerCPU 1 (FetchResult.response 500 (some [])) = none :=
  monitor_skips_unavailable_reading.2.2.1 1 500 (some []) (by decide)

/-- Counterexample for C6: with the metadata URI environment variable
unset, the constructor returns the no-op breaker but prints no log line
at all — the claim's `logs the degradation exactly once` fails. -/
theorem cpu_breaker_degraded_logs_nothing :
    (NewCPUCircuitBreaker 95 85 "" FetchResult.failed).logs = []
    ∧ IsOpen (NewCPUCircuitBreaker 95 85 "" FetchResult.failed) = false
    ∧ (NewCPUCircuitBreaker 95 85 "" FetchResult.failed).monitorStarted = false
    ∧ ¬(NewCPUCircuitBreaker 95 85 "" FetchResult.failed).logs.length = 1 := by
  refine ⟨rfl, rfl, rfl, fun h => ?_⟩
  rw [show (NewCPUCircuitBreaker 95 85 "" FetchResult.failed).logs = [] from rfl] at h
  cases h

/-- C6 (amended): if resource-limit discovery fails at startup — the
metadata URI environment variable is unset, or `fetchTaskCPULimit`
fails (request error, non-200 status, parse failure, or a CPU limit
that is not positive) — the constructor returns a monitor that never
reports overloaded, with no sampling goroutine started, without
crashing or blocking, and logs nothing (no degradation log line is
printed). -/
theorem cpu_breaker_degrades_to_noop :
    (∀ (overload recovery : ℚ) (task : FetchResult ℚ) (env : String),
        env = "" ∨ fetchTaskCPULimit task = none →
          IsOpen (NewCPUCircuitBreaker overload recovery env task) = false
          ∧ (NewCPUCircuitBreaker overload recovery env task).monitorStarted = false
          ∧ (NewCPUCircuitBreaker overload recovery env task).logs = [])
    ∧ fetchTaskCPULimit FetchResult.failed = none
    ∧ (∀ (status : ℕ) (body : Option ℚ), status ≠ 200 →
        fetchTaskCPULimit (FetchResult.response status body) = none)
    ∧ (∀ status : ℕ, fetchTaskCPULimit (FetchResult.response status none) = none)
    ∧ (∀ limit : ℚ, limit ≤ 0 →
        fetchTaskCPULimit (FetchResult.response 200 (some limit)) = none) := by
  refine ⟨fun overload recovery task env h => ?_, rfl, fun status body h => ?_,
    fun status => ?_, fun limit h => ?_⟩
  · rcases h with h | h
    · subst h; exact ⟨rfl, rfl, rfl⟩
    · by_cases he : env = ""
      · subst he; exact ⟨rfl, rfl, rfl⟩
      · simp [NewCPUCircuitBreaker, IsOpen, he, h]
  · simp [fetchTaskCPULimit, h]
  · by_cases h : status = 200 <;> simp [fetchTaskCPULimit, h]
  · simp [fetchTaskCPULimit, h]

/-- Witness for C6 (amended): the degraded constructor run with the
environment variable unset yields the permanent no-op monitor. -/
theorem cpu_breaker_degrades_to_noop_w :
    IsOpen (NewCPUCircuitBreaker 95 85 "" FetchResult.failed) = false
    ∧ (NewCPUCircuitBreaker 95 85 "" FetchResult.failed).monitorStarted = false
    ∧ (NewCPUCircuitBreaker 95 85 "" FetchResult.failed).logs = [] :=
  cpu_breaker_degrades_to_noop.1 95 85 FetchResult.failed "" (Or.inl rfl)

/-- C7: the admission-gate middleware rejects with a 503
SERVICE_OVERLOADED response carrying the current CPU utilization in its
details and aborts the chain exactly when the monitor reports
overloaded, and passes the request through unchanged otherwise. -/
theorem admission_gate_consults_monitor :
    ∀ cb : CPUMonitorState,
      (cb.isOpen = true →
        CPUCircuitBreakerMiddleware cb
          = GateOutcome.rejected 503 "SERVICE_OVERLOADED" [cb.currentCPU]
        ∧ (CPUCircuitBreakerMiddleware cb).invokesNext = false)
      ∧ (cb.isOpen = false →
        CPUCircuitBreakerMiddleware cb = GateOutcome.passed
        ∧ (CPUCircuitBreakerMiddleware cb).invokesNext = true) := by
  intro cb
  constructor <;> intro h <;>
    simp [CPUCircuitBreakerMiddleware, h, GateOutcome.invokesNext]

/-- Witness for C7: an overloaded monitor at 97% yields the 503
SERVICE_OVERLOADED rejection with the utilization in the details. -/
theorem admission_gate_consults_monitor_w :
    CPUCircuitBreakerMiddleware ⟨true, 97⟩
      = GateOutcome.rejected 503 "SERVICE_OVERLOADED" [97]
    ∧ (CPUCircuitBreakerMiddleware ⟨true, 97⟩).invokesNext = false :=
  (admission_gate_consults_monitor ⟨true, 97⟩).1 rfl

/-- C2: evaluation of `TimeoutMiddleware`'s response writes at the
failing input.  Under the configured 100 ms deadline, a handler that
completes at 150 ms writing status 200 and body `handler-result` leaves
the shared writer with the 504 status (the claim's timer-first part is
right) but with two body writes: the abandoned goroutine's result is
appended to the response after the 504 REQUEST_TIMEOUT body, since
timeout.go has no write-once guard — refuting the claim's `exactly one
response is written per request` conjunct.  A handler completing at
50 ms, before the deadline, does write the sole response, as the claim
says. -/
theorem timeout_handler_result_written_after_504 :
    timeoutRequestWrites requestTimeout 150 200 "handler-result"
      = { status := some 504, bodyChunks := ["REQUEST_TIMEOUT", "handler-result"] }
    ∧ (timeoutRequestWrites requestTimeout 150 200 "handler-result").bodyChunks.length ≠ 1
    ∧ timeoutRequestWrites requestTimeout 50 200 "handler-result"
        = { status := some 200, bodyChunks := ["handler-result"] } := by
  refine ⟨rfl, fun h => ?_, rfl⟩
  rw [show (timeoutRequestWrites requestTimeout 150 200 "handler-result").bodyChunks
      = ["REQUEST_TIMEOUT", "handler-result"] from rfl] at h
  cases h

/-- C8: a panic in the handler goroutine strictly before the deadline
timer fires is received on the panic channel and re-raised on the main
request path. -/
theorem panic_before_deadline_reraised :
    ∀ timeout t : ℕ, t < timeout →
      TimeoutMiddleware timeout (HandlerBehavior.panics t) = TimeoutOutcome.repanic := by
  intro timeout t h
  simp [TimeoutMiddleware, h]

/-- Witness for C8: a panic at 5 ms under the configured 100 ms
deadline is re-raised. -/
theorem panic_before_deadline_reraised_w :
    TimeoutMiddleware requestTimeout (HandlerBehavior.panics 5) = TimeoutOutcome.repanic :=
  panic_before_deadline_reraised requestTimeout 5 (by decide)

/-- C10: once the timer fires first, the middleware's response is the
504 REQUEST_TIMEOUT error and stays so: a panic raised by the abandoned
handler goroutine after the timeout is never re-raised on the request
path (the middleware has returned from the select and never reads the
unbuffered panic channel again, so the goroutine's send blocks
forever). -/
theorem panic_after_deadline_not_reraised :
    ∀ timeout t : ℕ, timeout < t →
      TimeoutMiddleware timeout (HandlerBehavior.panics t)
        = TimeoutOutcome.timeoutResponse 504 "REQUEST_TIMEOUT"
      ∧ TimeoutMiddleware timeout (HandlerBehavior.panics t) ≠ TimeoutOutcome.repanic := by
  intro timeout t h
  have h' : ¬t < timeout := Nat.not_lt.mpr (Nat.le_of_lt h)
  constructor <;> simp [TimeoutMiddleware, h']

/-- Witness for C10: a panic at 150 ms under the 100 ms deadline leaves
the 504 response final. -/
theorem panic_after_deadline_not_reraised_w :
    TimeoutMiddleware requestTimeout (HandlerBehavior.panics 150)
      = TimeoutOutcome.timeoutResponse 504 "REQUEST_TIMEOUT"
    ∧ TimeoutMiddleware requestTimeout (HandlerBehavior.panics 150)
        ≠ TimeoutOutcome.repanic :=
  panic_after_deadline_not_reraised requestTimeout 150 (by decide)

lemma stepSlots_maxConcurrent (b : Bulkhead) (e : SlotEvent) :
    (stepSlots b e).maxConcurrent = b.maxConcurrent := by
  cases e with
  | acquire =>
    by_cases h : b.held < b.maxConcurrent <;> simp [stepSlots, tryAcquire, h]
  | release => rfl

lemma stepSlots_held_le (b : Bulkhead) (e : SlotEvent) (h : b.held ≤ b.maxConcurrent) :
    (stepSlots b e).held ≤ (stepSlots b e).maxConcurrent := by
  cases e with
  | acquire =>
    by_cases hlt : b.held < b.maxConcurrent <;> simp [stepSlots, tryAcquire, hlt]
    · exact hlt
    · exact h
  | release => exact le_trans (Nat.sub_le _ _) h

lemma foldl_stepSlots_maxConcurrent (l : List SlotEvent) (b : Bulkhead) :
    (l.foldl stepSlots b).maxConcurrent = b.maxConcurrent := by
  induction l generalizing b with
  | nil => rfl
  | cons e t ih => exact (ih (stepSlots b e)).trans (stepSlots_maxConcurrent b e)

lemma foldl_stepSlots_held_le (l : List SlotEvent) (b : Bulkhead)
    (h : b.held ≤ b.maxConcurrent) :
    (l.foldl stepSlots b).held ≤ (l.foldl stepSlots b).maxConcurrent := by
  induction l generalizing b with
  | nil => exact h
  | cons e t ih =>
    exact ih (stepSlots b e) (stepSlots_held_le b e h)

/-- C5: under any interleaving of non-blocking acquires and releases
the number of held slots never exceeds the capacity; an `Execute` call
arriving with all slots held does not invoke the handler and responds
503 SERVICE_UNAVAILABLE immediately, leaving the bulkhead unchanged
(no queuing); an `Execute` call that gets a slot holds `held + 1 ≤ C`
slots while the handler runs and releases the slot on every exit path —
normal, error or panic — so the bulkhead returns to its prior state and
a subsequent acquire succeeds; the internal capacity is 50 and the
external capacity is 100. -/
theorem bulkhead_capacity_and_release :
    (∀ (b : Bulkhead) (l : List SlotEvent), b.held ≤ b.maxConcurrent →
        (l.foldl stepSlots b).held ≤ b.maxConcurrent)
    ∧ (∀ (b : Bulkhead) (ex : HandlerExit), b.held = b.maxConcurrent →
        (Execute b ex).invoked = false
        ∧ (Execute b ex).rejection = some (503, "SERVICE_UNAVAILABLE")
        ∧ (Execute b ex).after = b)
    ∧ (∀ (b : Bulkhead) (ex : HandlerExit), b.held < b.maxConcurrent →
        (Execute b ex).invoked = true
        ∧ (Execute b ex).rejection = none
        ∧ (Execute b ex).heldDuring = b.held + 1
        ∧ (Execute b ex).heldDuring ≤ b.maxConcurrent
        ∧ (Execute b ex).after = b
        ∧ (tryAcquire (Execute b ex).after).1 = true)
    ∧ InternalBulkhead.maxConcurrent = 50
    ∧ ExternalBulkhead.maxConcurrent = 100 := by
  refine ⟨fun b l h => ?_, fun b ex h => ?_, fun b ex h => ?_, rfl, rfl⟩
  · exact (foldl_stepSlots_held_le l b h).trans
      (le_of_eq (foldl_stepSlots_maxConcurrent l b))
  · have h' : ¬b.held < b.maxConcurrent := by omega
    refine ⟨?_, ?_, ?_⟩ <;> simp [Execute, tryAcquire, h']
  · have hafter : (Execute b ex).after = b := by
      simp [Execute, tryAcquire, releaseSlot, h]
    refine ⟨?_, ?_, ?_, ?_, hafter, ?_⟩
    · simp [Execute, tryAcquire, h]
    · simp [Execute, tryAcquire, h]
    · simp [Execute, tryAcquire, h]
    · simp [Execute, tryAcquire, h]; omega
    · rw [hafter]; simp [tryAcquire, h]

/-- Witness for C5: a bulkhead of capacity 2 with both slots held
rejects with 503 and is left unchanged. -/
theorem bulkhead_capacity_and_release_w :
    (Execute ⟨2, 2⟩ HandlerExit.normal).invoked = false
    ∧ (Execute ⟨2, 2⟩ HandlerExit.normal).rejection = some (503, "SERVICE_UNAVAILABLE")
    ∧ (Execute ⟨2, 2⟩ HandlerExit.normal).after = ⟨2, 2⟩ :=
  bulkhead_capacity_and_release.2.1 ⟨2, 2⟩ HandlerExit.normal rfl

/-- C9: bulkhead classification is a function of the `X-User-Type`
header alone: exactly the value `staff` selects the internal bulkhead
(capacity 50), and any other value — `public`, a missing header (the
empty string), or anything else — selects the external bulkhead
(capacity 100). -/
theorem classification_by_user_type_header :
    ∀ userType : String,
      (BulkheadMiddleware userType = InternalBulkhead ↔ userType = "staff")
      ∧ (userType ≠ "staff" → BulkheadMiddleware userType = ExternalBulkhead)
      ∧ BulkheadMiddleware "public" = ExternalBulkhead
      ∧ BulkheadMiddleware "" = ExternalBulkhead
      ∧ InternalBulkhead.maxConcurrent = 50
      ∧ ExternalBulkhead.maxConcurrent = 100 := by
  intro userType
  by_cases h : userType = "staff"
  · subst h
    refine ⟨iff_of_true rfl rfl, fun hne => absurd rfl hne, rfl, rfl, rfl, rfl⟩
  · have hb : isInternalRequest userType = false := by
      simp [isInternalRequest, h]
    refine ⟨?_, fun _ => ?_, rfl, rfl, rfl, rfl⟩
    · rw [BulkheadMiddleware, hb]
      simp only [Bool.false_eq_true, if_false]
      exact iff_of_false (by decide) h
    · rw [BulkheadMiddleware, hb]
      simp

/-- Witness for C9: the header value `staff` selects the internal
bulkhead. -/
theorem classification_by_user_type_header_w :
    BulkheadMiddleware "staff" = InternalBulkhead :=
  (classification_by_user_type_header "staff").1.mpr rfl

end Gospital
